import Mathlib

/-!
Verification of the digital-twin streaming server (`server.py`).

The server keeps module-level shared state (a `deque(maxlen=10)` history,
a float clock `time`, and a float `damage_state`), and in its websocket
loop performs one simulation tick per iteration: it samples a fixed
(RESOLUTION+1)² grid, normalizes six features per point via the scaler
table, queries the PINN surrogate for a base stress per point, amplifies
it by the current damage, updates the damage state with a stress-driven
growth law, pushes (max, avg) stress statistics into the history window,
runs the LSTM prognostics when the window is full, sends the tick message,
and only then advances the clock.

Real arithmetic is modelled exactly over ℚ; the decimal literals below
denote the same rational constants as the Python source. The two external
models (`pinn`, `lstm`) are opaque collaborator functions passed as
parameters; a fallible collaborator call is a function into `Option`.
-/

namespace Twin

/-- Settings block of `server.py` (lines 23-28). -/
def RESOLUTION : ℕ := 50

/-- Beam length constant (line 25). -/
def BEAM_LENGTH : ℚ := 1050

/-- Beam height constant (line 26). -/
def BEAM_HEIGHT : ℚ := 300

/-- Failure threshold for the RUL rule (line 27). -/
def FAILURE_THRESHOLD : ℚ := 0.9

/-- Simulated time step per tick (line 28). -/
def TIME_STEP : ℚ := 1.0

/-- One entry of the scaler table `scaler_params.json`: a mean and a scale. -/
structure ScalerEntry where
  mean : ℚ
  scale : ℚ
deriving DecidableEq, Repr

/-- The scaler table: an association list from feature name to entry;
`json.load` (line 18) yields exactly the key-value pairs of the file. -/
def ScalerTable : Type := List (String × ScalerEntry)

/-- Dictionary lookup `scalers[key]` (line 21); `none` models the KeyError
raised by Python when the key is missing. -/
def lookupScaler : ScalerTable → String → Option ScalerEntry
  | [], _ => none
  | (k, e) :: rest, key => if k = key then some e else lookupScaler rest key

/-- Startup loading of the scaler table (lines 17-18): `json.load` parses the
file and performs no validation of which keys are present, so for any table
contents it succeeds and returns them unchanged. -/
def loadScalers (raw : ScalerTable) : Option ScalerTable :=
  some raw

/-- Feature normalization `norm` (lines 20-21): `(val - mean) / scale`,
failing (KeyError) when the key is absent from the table. -/
def norm (scalers : ScalerTable) (val : ℚ) (key : String) : Option ℚ :=
  (lookupScaler scalers key).map (fun e => (val - e.mean) / e.scale)

/-- Physical x-coordinate of grid column `x` (line 63). -/
def physX (R : ℕ) (x : ℕ) (L : ℚ) : ℚ :=
  ((x : ℚ) / (R : ℚ) - 0.5) * L

/-- Physical y-coordinate of grid row `y` (line 64). -/
def physY (R : ℕ) (y : ℕ) (H : ℚ) : ℚ :=
  ((y : ℚ) / (R : ℚ) - 0.5) * H

/-- Grid enumeration of the two nested loops (lines 60-61): `y` outer over
`range (R+1)`, `x` inner over `range (R+1)`; each iteration works on the
index pair `(x, y)`. -/
def gridIndices (R : ℕ) : List (ℕ × ℕ) :=
  (List.range (R + 1)).flatMap (fun y => (List.range (R + 1)).map (fun x => (x, y)))

/-- The normalized 6-feature input row built for one grid point
(lines 66-73): `[norm phys_x "x", norm phys_y "y", norm 50000 "load_mag",
norm 5.5 "global_deflection", norm 25 "fc", norm 314 "fy"]`; fails if any
scaler entry is missing. -/
def featureVec (scalers : ScalerTable) (R x y : ℕ) (L H : ℚ) : Option (List ℚ) := do
  let f1 ← norm scalers (physX R x L) "x"
  let f2 ← norm scalers (physY R y H) "y"
  let f3 ← norm scalers 50000 "load_mag"
  let f4 ← norm scalers 5.5 "global_deflection"
  let f5 ← norm scalers 25 "fc"
  let f6 ← norm scalers 314 "fy"
  pure [f1, f2, f3, f4, f5, f6]

/-- Sequential accumulation of one result per list element, stopping at the
first failure: the shape of the per-point loop body appending into
`stress_field`, with an exception propagating out of the loop. -/
def collectResults (f : α → Option β) : List α → Option (List β)
  | [] => some []
  | a :: rest => do
    let b ← f a
    let r ← collectResults f rest
    pure (b :: r)

/-- The batch of normalized feature vectors produced by one tick's grid
loop, in loop order. -/
def gridSample (scalers : ScalerTable) (R : ℕ) (L H : ℚ) : Option (List (List ℚ)) :=
  collectResults (fun p => featureVec scalers R p.1 p.2 L H) (gridIndices R)

/-- Extraction of the stress component of a surrogate output row:
`pinn.predict(X)[0][1]` (line 75). -/
def stressComponent (row : List ℚ) : ℚ :=
  row.getD 1 0

/-- The stress field of one tick (lines 58-80): for each grid point, build
the feature row, call the surrogate (`pinn` returns `none` when the call
fails), take output component 1, and amplify by
`1.0 + 2.5 * crack_severity` (line 78). -/
def stressField (pinn : List ℚ → Option (List ℚ)) (scalers : ScalerTable)
    (R : ℕ) (L H crack_severity : ℚ) : Option (List ℚ) :=
  collectResults
    (fun p => do
      let v ← featureVec scalers R p.1 p.2 L H
      let row ← pinn v
      pure (stressComponent row * (1.0 + 2.5 * crack_severity)))
    (gridIndices R)

/-- Maximum of a list of stresses, `np.max` (line 85); 0 for the empty list,
which the loop never produces. -/
def listMax : List ℚ → ℚ
  | [] => 0
  | a :: rest => rest.foldl max a

/-- Mean of a list of stresses, `np.mean` (line 86). -/
def listMean (l : List ℚ) : ℚ :=
  l.sum / (l.length : ℚ)

/-- Damage growth law (line 89): `0.002 + 0.00000004 * max_stress`.
No clamping is applied. -/
def growth_rate (max_stress : ℚ) : ℚ :=
  0.002 + 0.00000004 * max_stress

/-- Damage state transition (line 90):
`damage_state = min(1.0, damage_state + growth_rate)`. -/
def damageTick (damage_state max_stress : ℚ) : ℚ :=
  min 1.0 (damage_state + growth_rate max_stress)

/-- History push of `deque(maxlen=10).append` (lines 31 and 92): append the
sample; when the deque is already at its maximum length, the oldest
(leftmost) element is discarded. -/
def historyPush (q : List (ℚ × ℚ)) (sample : ℚ × ℚ) : List (ℚ × ℚ) :=
  if q.length < 10 then q ++ [sample] else q.drop 1 ++ [sample]

/-- Folding a whole sequence of pushes into the history window. -/
def historyPushAll (q : List (ℚ × ℚ)) (samples : List (ℚ × ℚ)) : List (ℚ × ℚ) :=
  samples.foldl historyPush q

/-- Prognostics stage (lines 97-107): `damage_pred` defaults to the current
damage state and `rul` to `None`; only when `len(history) == maxlen` (10)
is the LSTM invoked, and then
`rul = (FAILURE_THRESHOLD - damage_pred) / TIME_STEP` if
`damage_pred < FAILURE_THRESHOLD`, else `0.0`. -/
def prognostics (lstm : List (ℚ × ℚ) → ℚ) (hist : List (ℚ × ℚ)) (damage_state : ℚ) :
    ℚ × Option ℚ :=
  if hist.length = 10 then
    let damage_pred := lstm hist
    (damage_pred,
      some (if damage_pred < FAILURE_THRESHOLD
            then (FAILURE_THRESHOLD - damage_pred) / TIME_STEP
            else 0.0))
  else
    (damage_state, none)

/-- The shared module-level state of the process (lines 31-33). -/
structure SimState where
  history : List (ℚ × ℚ)
  time : ℚ
  damage_state : ℚ
deriving DecidableEq, Repr

/-- The state at process start (lines 31-33): empty history, `time = 0.0`,
`damage_state = 0.05`. -/
def initState : SimState :=
  { history := [], time := 0.0, damage_state := 0.05 }

/-- One message sent to the client (lines 112-117). -/
structure TickMsg where
  time : ℚ
  stress_field : List ℚ
  damage_prediction : ℚ
  rul : Option ℚ
deriving DecidableEq, Repr

/-- One iteration of the websocket loop body (lines 44-122): snapshot the
damage as `crack_severity` (line 50), compute the stress field, compute the
stress statistics, advance the damage state, push the statistics into the
history, run the gated prognostics, emit the message carrying the pre-tick
time, and advance the clock by `TIME_STEP` after sending. `none` models an
uncaught collaborator exception escaping the loop body. -/
def execute_tick (pinn : List ℚ → Option (List ℚ)) (lstm : List (ℚ × ℚ) → ℚ)
    (scalers : ScalerTable) (s : SimState) : Option (SimState × TickMsg) := do
  let crack_severity := s.damage_state
  let field ← stressField pinn scalers RESOLUTION BEAM_LENGTH BEAM_HEIGHT crack_severity
  let max_stress := listMax field
  let avg_stress := listMean field
  let d1 := damageTick s.damage_state max_stress
  let hist1 := historyPush s.history (max_stress, avg_stress)
  let pr := prognostics lstm hist1 d1
  pure ({ history := hist1, time := s.time + TIME_STEP, damage_state := d1 },
        { time := s.time, stress_field := field,
          damage_prediction := pr.1, rul := pr.2 })

/-- Running the websocket loop (lines 44-123) for `n` iterations from state
`s`. The surrogate collaborator is given per tick as `pinnAt k` so that a
call can fail on one tick and succeed on another. The loop body has no
exception handler, so a failing tick sends nothing and the loop terminates:
the result is the list of messages sent, the final shared state, and
whether the loop was aborted by an uncaught collaborator exception. -/
def sessionRun (pinnAt : ℕ → List ℚ → Option (List ℚ)) (lstm : List (ℚ × ℚ) → ℚ)
    (scalers : ScalerTable) : ℕ → SimState → List TickMsg × SimState × Bool
  | 0, s => ([], s, false)
  | n + 1, s =>
    match execute_tick (pinnAt 0) lstm scalers s with
    | none => ([], s, true)
    | some (s', msg) =>
      let rest := sessionRun (fun k => pinnAt (k + 1)) lstm scalers n s'
      (msg :: rest.1, rest.2)

/-- The un-amplified (damage-independent) stress of one grid point: feature
row, surrogate call, stress component — everything of the per-point loop
body except the amplification factor of line 78. -/
def basePoint (pinn : List ℚ → Option (List ℚ)) (scalers : ScalerTable)
    (R : ℕ) (L H : ℚ) (p : ℕ × ℕ) : Option ℚ := do
  let v ← featureVec scalers R p.1 p.2 L H
  let row ← pinn v
  pure (stressComponent row)

/-- A concrete scaler table holding all six required feature keys, with
mean 0 and scale 1 (so normalization is the identity). -/
def tbl0 : ScalerTable :=
  [("x", ⟨0, 1⟩), ("y", ⟨0, 1⟩), ("load_mag", ⟨0, 1⟩),
   ("global_deflection", ⟨0, 1⟩), ("fc", ⟨0, 1⟩), ("fy", ⟨0, 1⟩)]

/-- A concrete sequence collaborator that always predicts damage 0. -/
def lstm0 : List (ℚ × ℚ) → ℚ := fun _ => 0

/-- A concrete per-tick surrogate whose call fails (raises) on the first
tick and succeeds, returning the row `[0, 0, 0]`, on every later tick. -/
def pinnFailFirst : ℕ → List ℚ → Option (List ℚ) :=
  fun k _ => if k = 0 then none else some [0, 0, 0]

/-- A concrete stream of twelve stress samples. -/
def sample12 : List (ℚ × ℚ) :=
  [(1, 1), (2, 2), (3, 3), (4, 4), (5, 5), (6, 6),
   (7, 7), (8, 8), (9, 9), (10, 10), (11, 11), (12, 12)]

/-! Helper lemmas shared across the claim proofs. -/

theorem collectResults_cons (f : α → Option β) (a : α) (l : List α) :
    collectResults f (a :: l) =
      (f a).bind (fun b => (collectResults f l).map (fun r => b :: r)) := by
  cases hfa : f a with
  | none => simp [collectResults, hfa]
  | some b =>
    cases hr : collectResults f l with
    | none => simp [collectResults, hfa, hr]
    | some r => simp [collectResults, hfa, hr]

theorem collectResults_none_of_head (f : α → Option β) (a : α) (l : List α)
    (h : f a = none) : collectResults f (a :: l) = none := by
  rw [collectResults_cons, h]
  rfl

theorem collectResults_length (f : α → Option β) :
    ∀ (l : List α) (r : List β), collectResults f l = some r → r.length = l.length := by
  intro l
  induction l with
  | nil => intro r h; simp [collectResults] at h; simp [← h]
  | cons a rest ih =>
    intro r h
    rw [collectResults_cons] at h
    cases hfa : f a with
    | none => rw [hfa] at h; simp at h
    | some b =>
      rw [hfa] at h
      cases hr : collectResults f rest with
      | none => rw [hr] at h; simp at h
      | some r' =>
        rw [hr] at h
        simp at h
        simp [← h, List.length_cons, ih r' hr]

theorem collectResults_map (g : α → Option β) (h : β → γ) (l : List α) :
    collectResults (fun a => (g a).map h) l =
      (collectResults g l).map (List.map h) := by
  induction l with
  | nil => simp [collectResults]
  | cons a rest ih =>
    rw [collectResults_cons, collectResults_cons, ih]
    cases hga : g a with
    | none => simp
    | some b =>
      cases hr : collectResults g rest with
      | none => simp
      | some r => simp

theorem range_flatMap_range (m n : ℕ) :
    (List.range m).flatMap (fun y => (List.range n).map (fun x => (x, y))) =
      (List.range (m * n)).map (fun i => (i % n, i / n)) := by
  induction m with
  | zero => simp
  | succ m ih =>
    rw [List.range_succ, List.flatMap_append, ih, Nat.succ_mul, List.range_add,
      List.map_append, List.map_map]
    congr 1
    simp only [List.flatMap_cons, List.flatMap_nil, List.append_nil, Function.comp]
    apply List.map_congr_left
    intro x hx
    rw [List.mem_range] at hx
    have hn : 0 < n := Nat.lt_of_le_of_lt (Nat.zero_le x) hx
    show (x, m) = ((m * n + x) % n, (m * n + x) / n)
    rw [Nat.add_comm (m * n) x, Nat.add_mul_mod_self_right, Nat.mod_eq_of_lt hx,
      Nat.add_mul_div_right _ _ hn, Nat.div_eq_of_lt hx, Nat.zero_add]

theorem gridIndices_eq (R : ℕ) :
    gridIndices R =
      (List.range ((R + 1) * (R + 1))).map (fun i => (i % (R + 1), i / (R + 1))) :=
  range_flatMap_range (R + 1) (R + 1)

theorem gridIndices_length (R : ℕ) : (gridIndices R).length = (R + 1) * (R + 1) := by
  rw [gridIndices_eq, List.length_map, List.length_range]

theorem stressField_eq_base (pinn : List ℚ → Option (List ℚ)) (scalers : ScalerTable)
    (R : ℕ) (L H c : ℚ) :
    stressField pinn scalers R L H c =
      (collectResults (basePoint pinn scalers R L H) (gridIndices R)).map
        (List.map (fun b => b * (1.0 + 2.5 * c))) := by
  rw [stressField, ← collectResults_map]
  congr 1
  funext p
  rw [basePoint]
  cases hv : featureVec scalers R p.1 p.2 L H with
  | none => simp [hv]
  | some v =>
    cases hr : pinn v with
    | none => simp [hv, hr]
    | some row => simp [hv, hr]

theorem gridIndices_head (R : ℕ) :
    ∃ t, gridIndices R = (0, 0) :: t := by
  have hN : (R + 1) * (R + 1) = (R * (R + 1) + R) + 1 := by ring
  rw [gridIndices_eq, hN, List.range_succ_eq_map, List.map_cons]
  exact ⟨_, by rw [Nat.zero_mod, Nat.zero_div]⟩

theorem execute_tick_eq (pinn : List ℚ → Option (List ℚ)) (lstm : List (ℚ × ℚ) → ℚ)
    (scalers : ScalerTable) (s : SimState) :
    execute_tick pinn lstm scalers s =
      (stressField pinn scalers RESOLUTION BEAM_LENGTH BEAM_HEIGHT s.damage_state).map
        (fun field =>
          ({ history := historyPush s.history (listMax field, listMean field),
             time := s.time + TIME_STEP,
             damage_state := damageTick s.damage_state (listMax field) },
           { time := s.time, stress_field := field,
             damage_prediction :=
               (prognostics lstm (historyPush s.history (listMax field, listMean field))
                 (damageTick s.damage_state (listMax field))).1,
             rul :=
               (prognostics lstm (historyPush s.history (listMax field, listMean field))
                 (damageTick s.damage_state (listMax field))).2 })) := by
  cases h : stressField pinn scalers RESOLUTION BEAM_LENGTH BEAM_HEIGHT s.damage_state with
  | none => simp [execute_tick, h]
  | some field => simp [execute_tick, h]

theorem stressField_none_of_pinn_none (pinn : List ℚ → Option (List ℚ))
    (scalers : ScalerTable) (R : ℕ) (L H c : ℚ) (h : ∀ v, pinn v = none) :
    stressField pinn scalers R L H c = none := by
  obtain ⟨t, ht⟩ := gridIndices_head R
  rw [stressField, ht]
  apply collectResults_none_of_head
  cases hv : featureVec scalers R 0 0 L H with
  | none => simp [hv]
  | some v => simp [hv, h v]

theorem featureVec_none_of_no_x (scalers : ScalerTable) (R x y : ℕ) (L H : ℚ)
    (h : lookupScaler scalers "x" = none) :
    featureVec scalers R x y L H = none := by
  simp [featureVec, norm, h]

theorem stressField_none_of_no_x (pinn : List ℚ → Option (List ℚ))
    (scalers : ScalerTable) (R : ℕ) (L H c : ℚ)
    (h : lookupScaler scalers "x" = none) :
    stressField pinn scalers R L H c = none := by
  obtain ⟨t, ht⟩ := gridIndices_head R
  rw [stressField, ht]
  apply collectResults_none_of_head
  simp [featureVec_none_of_no_x scalers R 0 0 L H h]

theorem historyPushAll_eq (xs : List (ℚ × ℚ)) :
    ∀ q : List (ℚ × ℚ), q.length ≤ 10 →
      historyPushAll q xs = (q ++ xs).drop (q.length + xs.length - 10) := by
  induction xs with
  | nil =>
    intro q hq
    simp only [historyPushAll, List.foldl_nil, List.append_nil, List.length_nil,
      Nat.add_zero]
    have h0 : q.length - 10 = 0 := by omega
    rw [h0, List.drop_zero]
  | cons a xs ih =>
    intro q hq
    have step : historyPushAll q (a :: xs) = historyPushAll (historyPush q a) xs := by
      rw [historyPushAll, historyPushAll, List.foldl_cons]
    rw [step]
    by_cases hlt : q.length < 10
    · have h1 : (historyPush q a).length ≤ 10 := by
        simp [historyPush, hlt]
        omega
      rw [ih _ h1]
      have e1 : historyPush q a = q ++ [a] := by simp [historyPush, hlt]
      rw [e1]
      have e2 : ((q ++ [a]).length + xs.length - 10) =
          (q.length + (a :: xs).length - 10) := by simp; omega
      rw [e2, List.append_assoc, List.singleton_append]
    · have hq10 : q.length = 10 := by omega
      cases q with
      | nil => simp at hq10
      | cons b q' =>
        have hq' : q'.length = 9 := by simpa using hq10
        have e1 : historyPush (b :: q') a = q' ++ [a] := by
          simp [historyPush, hq10, hlt]
        have h1 : (q' ++ [a]).length ≤ 10 := by simp [hq']
        rw [e1, ih _ h1]
        have e2 : (q' ++ [a]).length + xs.length - 10 = xs.length := by simp [hq']
        have e3 : (b :: q').length + (a :: xs).length - 10 = xs.length + 1 := by
          simp [hq']
        rw [e2, e3, List.cons_append, List.drop_succ_cons, List.append_assoc,
          List.singleton_append]

/-! Claim C1: damage monotonicity and range. -/

/-- Claim C1, counterexample: the spec claims the growth rate is clamped to
a minimum of 0 so that the damage state is non-decreasing and stays in
[0,1] for every value of max_stress, including negative values. The code
(line 89) applies no clamp: at damage 0.05 and max_stress = -1000000 the
growth rate is -0.038, so the damage decreases across the tick, and at
damage 0.01 the new damage is even negative, leaving [0,1]. -/
theorem damage_decreases_on_very_negative_stress :
    damageTick 0.05 (-1000000) < 0.05 ∧ damageTick 0.01 (-1000000) < 0 := by
  constructor <;> norm_num [damageTick, growth_rate, min_def]

/-- Claim C1, amended: whenever the computed growth rate is nonnegative
(equivalently max_stress ≥ -50000; there is no clamp in the code), the
damage state is non-decreasing across the tick and stays in [0,1]. -/
theorem damage_nondecreasing_of_nonneg_growth (d m : ℚ)
    (h0 : 0 ≤ d) (h1 : d ≤ 1) (hg : 0 ≤ growth_rate m) :
    d ≤ damageTick d m ∧ 0 ≤ damageTick d m ∧ damageTick d m ≤ 1 := by
  simp only [damageTick]
  rw [show (1.0 : ℚ) = 1 from by norm_num]
  exact ⟨le_min h1 (by linarith), le_min (by norm_num) (by linarith),
    (min_le_left _ _)⟩

/-- Claim C1, witness: the amended theorem applied at damage 0.05 and
max_stress 1000 (growth rate 0.00204 ≥ 0). -/
theorem damage_nondecreasing_witness :
    (0.05 : ℚ) ≤ damageTick 0.05 1000 ∧ 0 ≤ damageTick 0.05 1000 ∧
      damageTick 0.05 1000 ≤ 1 :=
  damage_nondecreasing_of_nonneg_growth 0.05 1000 (by norm_num) (by norm_num)
    (by norm_num [growth_rate])

/-! Claim C2: the damage transition law. -/

/-- Claim C2, counterexample: the spec claims that once damage reaches 1.0
further growth has no observable effect. With a sufficiently negative
max_stress the unclamped growth rate (line 89) is negative and the state
leaves 1.0 again: at max_stress = -1000000000 the tick maps damage 1 to
-38.998. -/
theorem damage_one_regresses_on_negative_growth :
    damageTick 1 (-1000000000) < 1 := by
  norm_num [damageTick, growth_rate, min_def]

/-- Claim C2, amended: every tick computes
growth_rate = 0.002 + 0.00000004 * max_stress and
new damage = min(1.0, old + growth_rate); damage 1.0 is preserved by any
further tick whose growth rate is nonnegative (the code does not clamp the
rate, so this proviso is necessary); at old damage 0.05 and max_stress 1000
the growth is 0.00204 and the new damage is 0.05204. -/
theorem damage_transition_formula (d m : ℚ) :
    damageTick d m = min 1.0 (d + (0.002 + 0.00000004 * m)) ∧
    (0 ≤ growth_rate m → damageTick 1 m = 1) ∧
    growth_rate 1000 = 0.00204 ∧
    damageTick 0.05 1000 = 0.05204 := by
  refine ⟨rfl, ?_, by norm_num [growth_rate], by norm_num [damageTick, growth_rate, min_def]⟩
  intro hg
  simp only [damageTick]
  rw [show (1.0 : ℚ) = 1 from by norm_num]
  exact min_eq_left (by linarith)

/-- Claim C2, witness: the amended theorem applied at damage 1 and
max_stress 1000, whose growth rate 0.00204 is nonnegative, so damage 1
is preserved. -/
theorem damage_transition_formula_witness :
    damageTick 1 1000 = 1 :=
  (damage_transition_formula 1 1000).2.1 (by norm_num [growth_rate])

/-! Claim C7: the history window is a strict FIFO of capacity 10. -/

/-- Claim C7: starting from any window contents within capacity, the history
window never holds more than 10 samples, and after pushing 10 or more
samples it holds exactly the last 10 pushed, in arrival order. -/
theorem history_window_fifo (q xs : List (ℚ × ℚ)) (hq : q.length ≤ 10) :
    (historyPushAll q xs).length ≤ 10 ∧
    (10 ≤ xs.length → historyPushAll q xs = xs.drop (xs.length - 10)) := by
  constructor
  · rw [historyPushAll_eq xs q hq, List.length_drop, List.length_append]
    omega
  · intro hxs
    rw [historyPushAll_eq xs q hq]
    have e : q.length + xs.length - 10 = q.length + (xs.length - 10) := by omega
    rw [e, List.drop_append]

/-- Claim C7, witness: pushing twelve concrete samples into the empty
window leaves at most 10 samples, namely exactly the last ten pushed. -/
theorem history_window_fifo_witness :
    (historyPushAll [] sample12).length ≤ 10 ∧
    historyPushAll [] sample12 = sample12.drop (sample12.length - 10) :=
  ⟨(history_window_fifo [] sample12 (by simp)).1,
   (history_window_fifo [] sample12 (by simp)).2 (by simp [sample12])⟩

/-! Claim C5: gating of the prognostics estimator and the RUL rule. -/

/-- Claim C5: the prognostics stage invokes the sequence collaborator
exactly when the history window holds 10 samples, in which case
rul = (0.9 - predicted) / 1.0 if predicted < 0.9 and 0.0 otherwise; when
the window is not full the predicted damage defaults to the current damage
state and rul is absent (`none`, distinguishable from `some 0`); within a
tick the message fields are exactly the prognostics result computed on the
post-push history and post-update damage. -/
theorem prognostics_gating (lstm : List (ℚ × ℚ) → ℚ) (hist : List (ℚ × ℚ)) (d : ℚ) :
    (hist.length = 10 →
      prognostics lstm hist d =
        (lstm hist,
         some (if lstm hist < 0.9 then (0.9 - lstm hist) / 1.0 else 0.0))) ∧
    (hist.length ≠ 10 → prognostics lstm hist d = (d, none)) ∧
    (∀ (pinn : List ℚ → Option (List ℚ)) (scalers : ScalerTable) (s : SimState),
      (execute_tick pinn lstm scalers s).map (fun r => (r.2.damage_prediction, r.2.rul)) =
        (execute_tick pinn lstm scalers s).map
          (fun r => prognostics lstm r.1.history r.1.damage_state)) := by
  refine ⟨?_, ?_, ?_⟩
  · intro h
    simp [prognostics, h, FAILURE_THRESHOLD, TIME_STEP]
  · intro h
    simp [prognostics, h]
  · intro pinn scalers s
    rw [execute_tick_eq]
    cases hf : stressField pinn scalers RESOLUTION BEAM_LENGTH BEAM_HEIGHT s.damage_state with
    | none => simp
    | some f => simp

/-- Claim C5, witness: a full window of ten (0,0) samples with a constant-0
collaborator yields prediction 0 and rul 0.9; an empty window yields the
current damage state and an absent rul. -/
theorem prognostics_gating_witness :
    prognostics lstm0 (List.replicate 10 (0, 0)) 0.5 = (0, some 0.9) ∧
    prognostics lstm0 [] 0.5 = (0.5, none) := by
  constructor
  · rw [(prognostics_gating lstm0 (List.replicate 10 (0, 0)) 0.5).1 (by simp)]
    norm_num [lstm0]
  · exact (prognostics_gating lstm0 [] 0.5).2.1 (by simp)

/-! Claim C6: grid sampler size, order, coordinates and normalization. -/

/-- Claim C6: the grid sampler of one tick produces exactly (R+1)² feature
vectors; enumeration is y-outer/x-inner, the entry at flat index
iy*(R+1)+ix being the point (ix, iy); each point's feature vector holds
the physical coordinates (ix/R - 0.5)*L and (iy/R - 0.5)*H and the four
scenario constants, each normalized as (value - mean) / scale from the
scaler table; e.g. R = 2 enumerates 9 points from (0,0) to (2,2). -/
theorem grid_sampler_spec (scalers : ScalerTable) (R : ℕ) (L H : ℚ) :
    (∀ vs, gridSample scalers R L H = some vs → vs.length = (R + 1) ^ 2) ∧
    (∀ ix iy, ix < R + 1 → iy < R + 1 →
      (gridIndices R)[iy * (R + 1) + ix]? = some (ix, iy)) ∧
    (∀ (x y : ℕ) (ex ey el ed ec ef : ScalerEntry),
      lookupScaler scalers "x" = some ex →
      lookupScaler scalers "y" = some ey →
      lookupScaler scalers "load_mag" = some el →
      lookupScaler scalers "global_deflection" = some ed →
      lookupScaler scalers "fc" = some ec →
      lookupScaler scalers "fy" = some ef →
      featureVec scalers R x y L H =
        some [(((x : ℚ) / (R : ℚ) - 0.5) * L - ex.mean) / ex.scale,
              (((y : ℚ) / (R : ℚ) - 0.5) * H - ey.mean) / ey.scale,
              (50000 - el.mean) / el.scale,
              (5.5 - ed.mean) / ed.scale,
              (25 - ec.mean) / ec.scale,
              (314 - ef.mean) / ef.scale]) ∧
    gridIndices 2 =
      [(0, 0), (1, 0), (2, 0), (0, 1), (1, 1), (2, 1), (0, 2), (1, 2), (2, 2)] := by
  refine ⟨?_, ?_, ?_, by decide⟩
  · intro vs h
    rw [gridSample] at h
    have hl := collectResults_length _ _ _ h
    rw [gridIndices_length] at hl
    rw [hl, pow_two]
  · intro ix iy hx hy
    have hlt : iy * (R + 1) + ix < (R + 1) * (R + 1) := by
      calc iy * (R + 1) + ix < iy * (R + 1) + (R + 1) := by omega
        _ = (iy + 1) * (R + 1) := by ring
        _ ≤ (R + 1) * (R + 1) := Nat.mul_le_mul_right _ hy
    rw [gridIndices_eq, List.getElem?_map, List.getElem?_range hlt, Option.map_some']
    have hmod : (iy * (R + 1) + ix) % (R + 1) = ix := by
      rw [Nat.add_comm, Nat.add_mul_mod_self_right, Nat.mod_eq_of_lt hx]
    have hdiv : (iy * (R + 1) + ix) / (R + 1) = iy := by
      rw [Nat.add_comm, Nat.add_mul_div_right _ _ (Nat.succ_pos R),
        Nat.div_eq_of_lt hx, Nat.zero_add]
    rw [hmod, hdiv]
  · intro x y ex ey el ed ec ef h1 h2 h3 h4 h5 h6
    simp [featureVec, norm, physX, physY, h1, h2, h3, h4, h5, h6]

/-- Claim C6, witness: the theorem applied at R = 2 with the concrete
all-identity scaler table, beam dimensions 0: nine identical feature
vectors, the flat index 2*(2+1)+1 holding point (1,2), and the point (1,2)
feature vector built by the normalization formula. -/
theorem grid_sampler_witness :
    ([[0, 0, 50000, 5.5, 25, 314], [0, 0, 50000, 5.5, 25, 314],
      [0, 0, 50000, 5.5, 25, 314], [0, 0, 50000, 5.5, 25, 314],
      [0, 0, 50000, 5.5, 25, 314], [0, 0, 50000, 5.5, 25, 314],
      [0, 0, 50000, 5.5, 25, 314], [0, 0, 50000, 5.5, 25, 314],
      [0, 0, 50000, 5.5, 25, 314]] : List (List ℚ)).length = (2 + 1) ^ 2 ∧
    (gridIndices 2)[2 * (2 + 1) + 1]? = some (1, 2) ∧
    featureVec tbl0 2 1 2 0 0 = some [0, 0, 50000, 5.5, 25, 314] := by
  have hfv : ∀ x y : ℕ, featureVec tbl0 2 x y 0 0 =
      some ([0, 0, 50000, 5.5, 25, 314] : List ℚ) := by
    intro x y
    have h := (grid_sampler_spec tbl0 2 0 0).2.2.1 x y ⟨0, 1⟩ ⟨0, 1⟩ ⟨0, 1⟩ ⟨0, 1⟩ ⟨0, 1⟩ ⟨0, 1⟩
      (by decide) (by decide) (by decide) (by decide) (by decide) (by decide)
    rw [h]
    norm_num
  have hg : gridIndices 2 =
      [(0, 0), (1, 0), (2, 0), (0, 1), (1, 1), (2, 1), (0, 2), (1, 2), (2, 2)] := by decide
  have heval : gridSample tbl0 2 0 0 =
      some ([[0, 0, 50000, 5.5, 25, 314], [0, 0, 50000, 5.5, 25, 314],
             [0, 0, 50000, 5.5, 25, 314], [0, 0, 50000, 5.5, 25, 314],
             [0, 0, 50000, 5.5, 25, 314], [0, 0, 50000, 5.5, 25, 314],
             [0, 0, 50000, 5.5, 25, 314], [0, 0, 50000, 5.5, 25, 314],
             [0, 0, 50000, 5.5, 25, 314]] : List (List ℚ)) := by
    rw [gridSample, hg]
    simp [collectResults, hfv]
  exact ⟨(grid_sampler_spec tbl0 2 0 0).1 _ heval,
    (grid_sampler_spec tbl0 2 0 0).2.1 1 2 (by norm_num) (by norm_num), hfv 1 2⟩

/-! Claim C8: stress amplification by the damage snapshot. -/

/-- Claim C8: the stress field at crack severity c is the severity-0 base
field scaled pointwise by (1 + 2.5*c) — so each mesh point's effective
stress is base * (1 + 2.5*c), and severity 0 leaves the base stress — and
within a tick the severity used is the damage state snapshotted at the
start of the tick, before the damage update. -/
theorem stress_amplification (pinn : List ℚ → Option (List ℚ)) (scalers : ScalerTable)
    (R : ℕ) (L H c : ℚ) :
    stressField pinn scalers R L H c =
      (stressField pinn scalers R L H 0).map (List.map (fun b => b * (1 + 2.5 * c))) ∧
    (∀ (lstm : List (ℚ × ℚ) → ℚ) (s : SimState),
      (execute_tick pinn lstm scalers s).map (fun r => r.2.stress_field) =
        stressField pinn scalers RESOLUTION BEAM_LENGTH BEAM_HEIGHT s.damage_state) := by
  constructor
  · rw [stressField_eq_base, stressField_eq_base pinn scalers R L H 0, Option.map_map]
    cases hb : collectResults (basePoint pinn scalers R L H) (gridIndices R) with
    | none => simp
    | some base =>
      simp only [Option.map_some']
      congr 1
      simp only [Function.comp, List.map_map]
      apply List.map_congr_left
      intro b _
      norm_num
  · intro lstm s
    rw [execute_tick_eq, Option.map_map]
    cases hf : stressField pinn scalers RESOLUTION BEAM_LENGTH BEAM_HEIGHT s.damage_state with
    | none => simp
    | some f => simp

theorem execute_tick_time (pinn : List ℚ → Option (List ℚ)) (lstm : List (ℚ × ℚ) → ℚ)
    (scalers : ScalerTable) (s s' : SimState) (msg : TickMsg)
    (h : execute_tick pinn lstm scalers s = some (s', msg)) :
    msg.time = s.time ∧ s'.time = s.time + TIME_STEP := by
  rw [execute_tick_eq] at h
  cases hf : stressField pinn scalers RESOLUTION BEAM_LENGTH BEAM_HEIGHT s.damage_state with
  | none => rw [hf] at h; simp at h
  | some f =>
    rw [hf] at h
    simp only [Option.map_some', Option.some.injEq, Prod.mk.injEq] at h
    obtain ⟨h1, h2⟩ := h
    rw [← h1, ← h2]
    exact ⟨rfl, rfl⟩

theorem sessionRun_msg_times (lstm : List (ℚ × ℚ) → ℚ) (scalers : ScalerTable) :
    ∀ (n : ℕ) (pinnAt : ℕ → List ℚ → Option (List ℚ)) (s : SimState) (i : ℕ),
      (((sessionRun pinnAt lstm scalers n s).1)[i]?).map TickMsg.time =
        (((sessionRun pinnAt lstm scalers n s).1)[i]?).map (fun _ => s.time + (i : ℚ)) := by
  intro n
  induction n with
  | zero => intro pinnAt s i; simp [sessionRun]
  | succ n ih =>
    intro pinnAt s i
    cases h : execute_tick (pinnAt 0) lstm scalers s with
    | none => simp [sessionRun, h]
    | some pr =>
      obtain ⟨s', msg⟩ := pr
      obtain ⟨hm, hs⟩ := execute_tick_time (pinnAt 0) lstm scalers s s' msg h
      cases i with
      | zero => simp [sessionRun, h, hm]
      | succ j =>
        have hj := ih (fun k => pinnAt (k + 1)) s' j
        simp only [sessionRun, h, List.getElem?_cons_succ]
        rw [hj, hs, TIME_STEP]
        have : s.time + ((j : ℚ) + 1) = s.time + 1.0 + (j : ℚ) := by ring
        simp only [Nat.cast_succ]
        rw [this]

/-! Claim C10: initial shared state and clock progression. -/

/-- Claim C10: at process start the shared state is damage_state = 0.05 and
time = 0.0; the i-th message a session sends reports time i * TIME_STEP
with TIME_STEP = 1.0, so the first message reports time 0.0 and the
reported time grows by exactly 1.0 between consecutive messages of the
session (the clock is advanced only after the message is built). -/
theorem initial_state_and_clock (pinnAt : ℕ → List ℚ → Option (List ℚ))
    (lstm : List (ℚ × ℚ) → ℚ) (scalers : ScalerTable) (n i : ℕ) :
    initState.damage_state = 0.05 ∧ initState.time = 0.0 ∧ TIME_STEP = 1.0 ∧
    (((sessionRun pinnAt lstm scalers n initState).1)[i]?).map TickMsg.time =
      (((sessionRun pinnAt lstm scalers n initState).1)[i]?).map (fun _ => (i : ℚ)) := by
  refine ⟨rfl, rfl, rfl, ?_⟩
  have h := sessionRun_msg_times lstm scalers n pinnAt initState i
  rw [h]
  have : initState.time + (i : ℚ) = (i : ℚ) := by
    rw [initState]
    norm_num
  rw [this]

/-! Claim C4: behavior on collaborator failure. -/

/-- Claim C4, counterexample: the spec claims that when a collaborator call
fails the tick's mutations are discarded, a CollaboratorError is raised,
and the session loop continues to the next tick rather than terminating.
The loop body has no exception handler: with a surrogate that fails on the
first tick and would succeed on every later tick, a two-iteration session
run emits no message at all and terminates (the crash flag is set), instead
of continuing with the second tick. -/
theorem collaborator_failure_kills_session :
    sessionRun pinnFailFirst lstm0 tbl0 2 initState = ([], initState, true) := by
  have ht : execute_tick (pinnFailFirst 0) lstm0 tbl0 initState = none := by
    rw [execute_tick_eq,
      stressField_none_of_pinn_none (pinnFailFirst 0) tbl0 RESOLUTION BEAM_LENGTH
        BEAM_HEIGHT initState.damage_state (fun v => rfl)]
    rfl
  simp [sessionRun, ht]

/-- Claim C4, amended: when the surrogate collaborator call fails on a
tick, the uncaught exception terminates the session loop: no message is
sent for that tick or any later one, and the shared state (damage, history,
clock) is left exactly as it was before the failing tick, because all
state mutations of the loop body come after the surrogate calls. No
CollaboratorError type, non-finite check, or per-tick recovery exists. -/
theorem collaborator_failure_terminates_session
    (pinnAt : ℕ → List ℚ → Option (List ℚ)) (lstm : List (ℚ × ℚ) → ℚ)
    (scalers : ScalerTable) (s : SimState) (n : ℕ)
    (h : ∀ v, pinnAt 0 v = none) :
    sessionRun pinnAt lstm scalers (n + 1) s = ([], s, true) := by
  have ht : execute_tick (pinnAt 0) lstm scalers s = none := by
    rw [execute_tick_eq,
      stressField_none_of_pinn_none (pinnAt 0) scalers RESOLUTION BEAM_LENGTH
        BEAM_HEIGHT s.damage_state h]
    rfl
  simp [sessionRun, ht]

/-- Claim C4, witness: the amended theorem applied to the always-failing
surrogate, one requested iteration, and the initial state. -/
theorem collaborator_failure_witness :
    sessionRun (fun _ _ => none) lstm0 tbl0 1 initState = ([], initState, true) :=
  collaborator_failure_terminates_session (fun _ _ => none) lstm0 tbl0 initState 0
    (fun _ => rfl)

/-! Claim C9: missing scaler entries and startup. -/

/-- Claim C9, counterexample: the spec claims a missing scaler entry causes
a fatal ConfigurationError at startup so the service refuses to start. The
startup path only loads the table and validates nothing: with an empty
scaler table, loading succeeds, and the failure instead occurs during the
first tick, whose first normalization raises the lookup error and aborts
the tick. -/
theorem empty_scaler_table_passes_startup :
    loadScalers [] = some [] ∧
    execute_tick (fun _ => some [0, 0, 0]) lstm0 [] initState = none := by
  refine ⟨rfl, ?_⟩
  rw [execute_tick_eq,
    stressField_none_of_no_x (fun _ => some [0, 0, 0]) [] RESOLUTION BEAM_LENGTH
      BEAM_HEIGHT initState.damage_state rfl]
  rfl

/-- Claim C9, amended: a scaler table lacking a required feature entry (for
example "x") is accepted unchanged at startup — loading performs no
validation — and the missing entry surfaces later as a failed lookup that
aborts the tick: every tick under such a table fails. -/
theorem missing_scaler_fails_at_first_tick (scalers : ScalerTable)
    (pinn : List ℚ → Option (List ℚ)) (lstm : List (ℚ × ℚ) → ℚ) (s : SimState)
    (h : lookupScaler scalers "x" = none) :
    loadScalers scalers = some scalers ∧
    execute_tick pinn lstm scalers s = none := by
  refine ⟨rfl, ?_⟩
  rw [execute_tick_eq,
    stressField_none_of_no_x pinn scalers RESOLUTION BEAM_LENGTH BEAM_HEIGHT
      s.damage_state h]
  rfl

/-- Claim C9, witness: the amended theorem applied to a table holding only
a "y" entry, so the "x" lookup fails. -/
theorem missing_scaler_witness :
    loadScalers [("y", (⟨0, 1⟩ : ScalerEntry))] = some [("y", ⟨0, 1⟩)] ∧
    execute_tick (fun _ => some [0, 0, 0]) lstm0 [("y", ⟨0, 1⟩)] initState = none :=
  missing_scaler_fails_at_first_tick [("y", ⟨0, 1⟩)] (fun _ => some [0, 0, 0]) lstm0
    initState (by decide)

end Twin
